/-
Verification of the MangaReaderScraper volume acquisition and assembly
pipeline, shallowly embedded from the Python sources.

Conventions of the embedding:
* raw image bytes are `List Nat` (one `Nat` per byte); Python's truthiness
  test `not page[1]` on a `bytes` value corresponds to the list being `[]`;
* Python dicts (`Volume._pages`, `Manga._volumes`) are association lists in
  insertion order with unique keys, as guaranteed by the guarded inserts of
  `add_page` / `add_volume`;
* raised exceptions are `Except`/explicit error values; a `try/except`
  clause catching only some exception constructors is modelled by matching
  on the error constructor;
* the filesystem is a list of the paths that currently exist; network and
  catalog access are abstract functions supplied as parameters, and the
  observable effect counts (catalog calls, page fetches) are returned
  explicitly by the functions that perform them.
-/

import Mathlib

namespace Scraper

/-- Raw image bytes (`bytes` in the source); `[]` is the empty-bytes sentinel. -/
abbrev Img := List Nat

/-- `scraper/manga.py` `Page`: holds page number & its image. -/
structure Page where
  number : Nat
  img : Img
  deriving DecidableEq, Repr

/-- The exceptions of `scraper/exceptions.py` that the embedded code raises
or catches (distinct constructors, as they are distinct Python classes). -/
inductive ScraperError where
  | volumeDoesntExist : String → ScraperError
  | volumeAlreadyPresent : String → ScraperError
  | pageAlreadyPresent : String → ScraperError
  deriving DecidableEq, Repr

/-- `scraper/manga.py` `Volume`: a manga volume & its pages.
`_pages` models the Python dict `page_number → Page` as an association
list in insertion order. -/
structure Volume where
  number : String
  file_path : String
  upload_path : String
  _pages : List (Nat × Page)
  deriving DecidableEq, Repr

/-- `Volume.page` property: the underlying page dict. -/
def Volume.page (v : Volume) : List (Nat × Page) :=
  v._pages

/-- Relation used by `Volume.pages`: `sorted(pages, key=lambda x: x.number)`. -/
def pageLe (a b : Page) : Prop :=
  a.number ≤ b.number

instance : DecidableRel pageLe := fun a b => Nat.decLe a.number b.number

instance : IsTotal Page pageLe := ⟨fun a b => Nat.le_total a.number b.number⟩

instance : IsTrans Page pageLe := ⟨fun _ _ _ h h2 => Nat.le_trans h h2⟩

/-- `Volume.pages` property: the dict values sorted ascending by page number. -/
def Volume.pages (v : Volume) : List Page :=
  List.insertionSort pageLe (v._pages.map Prod.snd)

/-- `Volume.add_page`: raises `PageAlreadyPresent` when the page number is
already a key of the dict (any stored `Page` is truthy), otherwise inserts. -/
def Volume.add_page (v : Volume) (page_number : Nat) (img : Img) :
    Except ScraperError Volume :=
  if ((v.page.lookup page_number).isSome : Bool) then
    .error (.pageAlreadyPresent ("Page " ++ toString page_number ++ " is already present"))
  else
    .ok { v with _pages := v._pages ++ [(page_number, Page.mk page_number img)] }

/-- The `Volume.pages` setter: reset `_pages` to `{}` then `add_page` each
`(page_number, img)` pair in order.  A raised `PageAlreadyPresent` aborts the
loop, leaving the pages added so far; the pair result carries the volume in
its state at that moment together with the escaping exception, if any. -/
def Volume.set_pages (v : Volume) (metadata : List (Nat × Img)) :
    Volume × Option ScraperError :=
  let rec go (v : Volume) : List (Nat × Img) → Volume × Option ScraperError
    | [] => (v, none)
    | (n, img) :: rest =>
      match v.add_page n img with
      | .ok v2 => go v2 rest
      | .error e => (v, some e)
  go { v with _pages := [] } metadata

/-- `Volume.total_pages`: `max(self.page)` over the dict keys; Python's
`max` raises `ValueError` on an empty sequence, modelled by `none`. -/
def Volume.total_pages (v : Volume) : Option Nat :=
  match v._pages.map Prod.fst with
  | [] => none
  | k :: ks => some (ks.foldl Nat.max k)

/-- Model of `re.split("([0-9]+)", s)` on the character list of `s`: the
alternating pieces `text, digits, text, …, text`, where text pieces may be
empty, digit pieces are maximal digit runs, and the result has odd length
starting and ending with a text piece. -/
def pySplitChars : List Char → List String
  | [] => [""]
  | c :: cs =>
    match pySplitChars cs with
    | [] => []
    | t :: rest =>
      if c.isDigit then
        if t = "" then
          match rest with
          | [] => "" :: String.singleton c :: [""]
          | d :: rest2 => "" :: (String.singleton c ++ d) :: rest2
        else "" :: String.singleton c :: t :: rest
      else (String.singleton c ++ t) :: rest

/-- `re.split("([0-9]+)", s)` as used by `natural_sort`. -/
def pySplit (s : String) : List String :=
  pySplitChars s.data

/-- Decimal value of an all-digit string. -/
def digitsToNat (s : String) : Nat :=
  s.data.foldl (fun n c => 10 * n + (c.toNat - 48)) 0

/-- One comparison chunk of the natural-sort key: a digit run compared as a
number (`Sum.inl`), any other run compared as lowercased text
(`Sum.inr`, represented by its list of character code points so that the
comparison is Python's code-point-lexicographic string order). -/
abbrev NatChunk := Sum Nat (List Nat)

/-- ASCII lowercasing of one character code point (`str.lower` on the
ASCII range relevant to volume identifiers). -/
def pyLowerCode (n : Nat) : Nat :=
  if 65 ≤ n ∧ n ≤ 90 then n + 32 else n

/-- `convert_text` from `natural_sort`:
`int(text) if text.isdigit() else text.lower()`. -/
def convert_text (text : String) : NatChunk :=
  if text ≠ "" ∧ text.data.all Char.isDigit then
    Sum.inl (digitsToNat text)
  else
    Sum.inr (text.data.map (fun c => pyLowerCode c.toNat))

/-- The alphanumeric sort key of `natural_sort`:
`[convert_text(c) for c in re.split("([0-9]+)", key(s))]`. -/
def alphanum_key (s : String) : List NatChunk :=
  (pySplit s).map convert_text

/-- Python's `<` on lists of comparable elements, parametrised by the
strict comparison of elements: the first unequal position decides, a
strict prefix is smaller. -/
def lexLt {α : Type} (lt : α → α → Bool) [DecidableEq α] :
    List α → List α → Bool
  | [], [] => false
  | [], _ :: _ => true
  | _ :: _, [] => false
  | a :: as, b :: bs => lt a b || (a = b && lexLt lt as bs)

/-- Python's `<` between two natural-sort key chunks.  An `int` and a `str`
are not comparable in Python; because the split alternates text and digit
runs, two keys are only ever compared chunk-by-chunk at positions of equal
kind, so the cross-kind values chosen here (numbers below text) are never
exercised. -/
def chunkLt : NatChunk → NatChunk → Bool
  | .inl a, .inl b => a < b
  | .inl _, .inr _ => true
  | .inr _, .inl _ => false
  | .inr a, .inr b => lexLt (fun x y => x < y) a b

/-- Python's `<` between two natural-sort keys. -/
def keyLt (a b : List NatChunk) : Bool :=
  lexLt chunkLt a b

/-- The non-strict key order induced by `keyLt` (what an ascending stable
sort by `keyLt` establishes between neighbours). -/
def keyLe (a b : List NatChunk) : Bool :=
  !(keyLt b a)

/-- `natural_sort`: Python's stable ascending `sorted` with the
alphanumeric key, modelled by a stable insertion sort on the key order. -/
def natural_sort {α : Type} (l : List α) (key : α → String) : List α :=
  List.insertionSort (fun a b => keyLe (alphanum_key (key a)) (alphanum_key (key b)) = true) l

/-- `sanitize_filename`: keep alphanumerics and `" ._-"`, then strip
trailing whitespace (Python `str.rstrip`). -/
def sanitize_filename (filename : String) : String :=
  let kept := filename.data.filter
    (fun c => c.isAlphanum || c = ' ' || c = '.' || c = '_' || c = '-')
  String.mk (kept.reverse.dropWhile Char.isWhitespace).reverse

/-- `scraper/manga.py` `Manga`: manga with volume and pages objects.
`_volumes` models the Python dict `volume_number → Volume` as an
association list in insertion order. -/
structure Manga where
  name : String
  filetype : String
  _volumes : List (String × Volume)
  deriving DecidableEq, Repr

/-- `Manga._volume_path`: `{manga_dir}/{name}/{name}_chapter_{vol}.{filetype}`.
`manga_dir` comes from the settings file (not under `src/`), so it is an
explicit parameter here. -/
def Manga.volume_path (mangaDir : String) (m : Manga) (volume_number : String) : String :=
  mangaDir ++ "/" ++ m.name ++ "/" ++ m.name ++ "_chapter_" ++ volume_number
    ++ "." ++ m.filetype

/-- `Manga._volume_upload_path`: `{upload_root}/{name}/{name}_chapter_{vol}.{filetype}`. -/
def Manga.volume_upload_path (uploadRoot : String) (m : Manga) (volume_number : String) : String :=
  uploadRoot ++ "/" ++ m.name ++ "/" ++ m.name ++ "_chapter_" ++ volume_number
    ++ "." ++ m.filetype

/-- `Manga.volumes_dict` property: the underlying volume dict. -/
def Manga.volumes_dict (m : Manga) : List (String × Volume) :=
  m._volumes

/-- Relation established by `Manga.volumes` between neighbours: natural
alphanumeric order of the volume numbers. -/
def volNatLe (a b : Volume) : Prop :=
  keyLe (alphanum_key a.number) (alphanum_key b.number) = true

instance : DecidableRel volNatLe := fun a b =>
  inferInstanceAs (Decidable (_ = true))

/-- `Manga.volumes` property: the dict values in natural alphanumeric order
of their volume numbers (`natural_sort(volumes, key=lambda x: x.number)`). -/
def Manga.volumes (m : Manga) : List Volume :=
  natural_sort (m._volumes.map Prod.snd) (fun x => x.number)

/-- `Manga.add_volume`: raises `VolumeAlreadyPresent` when the volume number
is already a key of the dict, otherwise inserts a fresh pageless `Volume`
with the deterministic file and upload paths.  The `complete` argument is
accepted and ignored, as in the source (its only use is commented out). -/
def Manga.add_volume (mangaDir uploadRoot : String) (m : Manga)
    (volume_number : String) (complete : Bool := true) :
    Except ScraperError Manga :=
  if ((m.volumes_dict.lookup volume_number).isSome : Bool) then
    .error (.volumeAlreadyPresent ("Volume " ++ volume_number ++ " is already present"))
  else
    let volume : Volume :=
      { number := volume_number
        file_path := m.volume_path mangaDir volume_number
        upload_path := m.volume_upload_path uploadRoot volume_number
        _pages := [] }
    .ok { m with _volumes := m._volumes ++ [(volume.number, volume)] }

/-- `Manga.volume_exists`: whether the deterministic volume path already
exists on disk; the filesystem is the list of existing paths. -/
def Manga.volume_exists (fs : List String) (mangaDir : String) (m : Manga)
    (volume_number : String) : Bool :=
  fs.contains (m.volume_path mangaDir volume_number)

/-- The name written on an archive entry in `MangaBuilder._to_cbz`:
`f"{page.number:03d}_{volume.number}.jpg"` (`%03d` pads the decimal digits
of the page number with zeros on the left to width 3). -/
def cbzEntryName (page_number : Nat) (volume_number : String) : String :=
  String.mk (List.replicate (3 - (toString page_number).length) '0')
    ++ toString page_number ++ "_" ++ volume_number ++ ".jpg"

/-- One assembled output container: either the page images of a paginated
document in emission order, or the named entries of an image-sequence
archive in emission order. -/
inductive SaveOutput where
  | pdf : List Img → SaveOutput
  | cbz : List (String × Img) → SaveOutput
  deriving DecidableEq, Repr

/-- The page images a written container holds, in emission order: the
document's pages, or the archive entries' bytes. -/
def SaveOutput.images : SaveOutput → List Img
  | .pdf imgs => imgs
  | .cbz es => es.map Prod.snd

namespace MangaBuilder

/-- `MangaBuilder._to_pdf`: `none` when `volume.pages` is empty (no file is
created); otherwise the document holding each page image in the order of
`volume.pages`. -/
def to_pdf (volume : Volume) : Option (List Img) :=
  if volume.pages = [] then none
  else some (volume.pages.map Page.img)

/-- `MangaBuilder._to_cbz`: `none` when `volume.pages` is empty (no file is
created); otherwise the archive entries, one per page of `volume.pages` in
order, each named `f"{page.number:03d}_{volume.number}.jpg"`. -/
def to_cbz (volume : Volume) : Option (List (String × Img)) :=
  if volume.pages = [] then none
  else some (volume.pages.map (fun p => (cbzEntryName p.number volume.number, p.img)))

/-- `MangaBuilder._get_save_method` followed by the call to the method:
`none` when the filetype has no conversion method (nothing is saved);
`some o` when the method ran, with `o = none` when it wrote no file. -/
def save_volume (filetype : String) (volume : Volume) : Option (Option SaveOutput) :=
  if filetype = "pdf" then some ((to_pdf volume).map .pdf)
  else if filetype = "cbz" then some ((to_cbz volume).map .cbz)
  else none

end MangaBuilder

namespace Download

/-- `Download._to_pdf` (legacy assembler in `scraper/download.py`): there is
no empty-page guard — a canvas is opened on the volume path and `c.save()`
is always invoked, so a document (with the pages in `volume.pages` order,
possibly zero of them) is always produced. -/
def to_pdf (volume : Volume) : Option (List Img) :=
  some (volume.pages.map Page.img)

/-- `Download._to_cbz` (legacy assembler in `scraper/download.py`): there is
no empty-page guard — `zipfile.ZipFile(path, "w")` creates the archive file
unconditionally.  Entries are written per `enumerate(volume.pages)` with
`jpgfilename = f"{manga_name}_{volume.number}_page_{num}.jpg"` (`num` is the
0-based enumeration position, not the page number, and without zero
padding); `cbz.write(tmp_jpg)` stores the temp-file path, whose final
component is `jpgfilename`, which we record as the entry name. -/
def to_cbz (manga_name : String) (volume : Volume) : Option (List (String × Img)) :=
  some ((volume.pages.enum.map
    (fun p => (manga_name ++ "_" ++ volume.number ++ "_page_" ++ toString p.1 ++ ".jpg",
      p.2.img))))

end Download

namespace BaseMangaParser

/-- `BaseMangaParser.page_data` (`scraper/parsers/base.py`): fetch one page.
`responses k` is the body returned by the HTTP GET of attempt `k`
(`none` for a non-200 status), `valid` is PIL decodability of the bytes.
The source loops `while attempt < 5`, breaking at the first 200 response,
so the result is decided by the first successful attempt among `0..4`;
after 5 failures, or when the body does not decode, it logs and returns
`(page_num, b"")` instead of raising. -/
def page_data (responses : Nat → Option Img) (valid : Img → Bool)
    (page_url : Nat × String) : Nat × Img :=
  match (List.range 5).findSome? responses with
  | none => (page_url.1, [])
  | some img_data =>
    if valid img_data then (page_url.1, img_data) else (page_url.1, [])

end BaseMangaParser

/-- Observable outcome of one `MangaBuilder._get_volume_data` call:
the filesystem and the builder's `Manga` afterwards, the number of catalog
calls and page fetches performed, the computed completeness flag (when the
code reached it), the page indices enumerated in the missing-pages error
log, the container written (if any), the exception escaping the call (if
any), and the returned volume number (`none` models returning Python
`None`; meaningful only when `aborted = none`). -/
structure GVDOut where
  fs : List String
  manga : Manga
  catalogCalls : Nat
  pageFetches : Nat
  volumeComplete : Option Bool
  reportedMissing : List Nat
  wrote : Option SaveOutput
  aborted : Option ScraperError
  ret : Option String
  deriving DecidableEq, Repr

namespace MangaBuilder

/-- `MangaBuilder._get_volume_data`: download the pages of a volume and save
them to disk.  `page_urls` is the catalog (`none` models a raised
`VolumeDoesntExist`), `fetch` is the parser's `page_data`, `filetype` is the
builder's output type, `manga` the builder's `Manga` in this process and
`fs` the filesystem.  Mirrors the source line by line: the `volume_exists`
short-circuit before any network work; the catalog call with its
`VolumeDoesntExist` handler; the fetch fan-out; the missing-page filtering
and completeness flag; the `try` block whose `except` catches only
`VolumeAlreadyExists`/`VolumeAlreadyPresent` (a `PageAlreadyPresent` from
the pages setter escapes, recorded in `aborted`); and the save step that
writes the container only when the save method exists and emits output. -/
def getVolumeData (mangaDir uploadRoot : String)
    (page_urls : String → Option (List (Nat × String)))
    (fetch : Nat × String → Nat × Img)
    (filetype : String) (manga : Manga) (fs : List String)
    (volume_number : String) : GVDOut :=
  if Manga.volume_exists fs mangaDir manga volume_number then
    ⟨fs, manga, 0, 0, none, [], none, none, none⟩
  else
    match page_urls volume_number with
    | none => ⟨fs, manga, 1, 0, none, [], none, none, some volume_number⟩
    | some urls =>
      if urls = [] then ⟨fs, manga, 1, 0, none, [], none, none, none⟩
      else
        let pages_data := urls.map fetch
        if pages_data = [] then
          ⟨fs, manga, 1, urls.length, none, [], none, none, some volume_number⟩
        else
          let anyMissing := pages_data.any (fun p => p.2 = [])
          let reported := if anyMissing
            then (pages_data.filter (fun p => p.2 = [])).map Prod.fst else []
          let pages_data2 := if anyMissing
            then pages_data.filter (fun p => ¬ p.2 = []) else pages_data
          let volume_complete := !anyMissing
          match manga.add_volume mangaDir uploadRoot volume_number volume_complete with
          | .ok m2 =>
            match (m2.volumes_dict.lookup volume_number) with
            | none =>
              -- unreachable: `add_volume` just inserted the key
              ⟨fs, m2, 1, urls.length, some volume_complete, reported, none, none,
                some volume_number⟩
            | some vol =>
              let setRes := vol.set_pages pages_data2
              let vols3 := m2._volumes.map
                (fun kv => if kv.1 = volume_number then (kv.1, setRes.1) else kv)
              let m3 : Manga := { m2 with _volumes := vols3 }
              match setRes.2 with
              | some e =>
                ⟨fs, m3, 1, urls.length, some volume_complete, reported, none,
                  some e, none⟩
              | none =>
                match save_volume filetype setRes.1 with
                | none =>
                  ⟨fs, m3, 1, urls.length, some volume_complete, reported, none,
                    none, some volume_number⟩
                | some out =>
                  let fs2 := if out.isSome then fs ++ [setRes.1.file_path] else fs
                  ⟨fs2, m3, 1, urls.length, some volume_complete, reported, out,
                    none, some volume_number⟩
          | .error _ =>
            -- caught `except (VolumeAlreadyExists, VolumeAlreadyPresent)`:
            -- logged, pages never attached, the old volume is saved
            match manga.volumes_dict.lookup volume_number with
            | none =>
              -- unreachable: `add_volume` failed because the key is present
              ⟨fs, manga, 1, urls.length, some volume_complete, reported, none,
                none, some volume_number⟩
            | some vol =>
              match save_volume filetype vol with
              | none =>
                ⟨fs, manga, 1, urls.length, some volume_complete, reported, none,
                  none, some volume_number⟩
              | some out =>
                let fs2 := if out.isSome then fs ++ [vol.file_path] else fs
                ⟨fs2, manga, 1, urls.length, some volume_complete, reported, out,
                  none, some volume_number⟩

/-- Python truthiness choice `a if a else b` for optional strings
(an empty string is falsy). -/
def pickName (o : Option String) (d : String) : String :=
  match o with
  | some s => if s = "" then d else s
  | none => d

/-- `MangaBuilder.get_manga_volumes`, parent-process side: resolve the
preferred name (`preferred_name` if truthy, else `title` if truthy, else the
manga url), sanitize it, create a fresh `Manga`, resolve the volume list,
and — since each volume is downloaded in its own worker process so the
parent's `Manga` is never mutated by `_get_volume_data` (source comment at
`manga.py:270`) — add a volume entry for every resolved id not already
present.  The loop body mirrors
`if not self.manga.volumes_dict.get(volume): self.manga.add_volume(volume)`. -/
def add_volume_if_absent (mangaDir uploadRoot : String) (m : Manga)
    (volume : String) : Manga :=
  if ((m.volumes_dict.lookup volume).isSome : Bool) then m
  else
    match m.add_volume mangaDir uploadRoot volume with
    | .ok m2 => m2
    | .error _ => m

/-- The list of volume ids `get_manga_volumes` resolves and then iterates
over: the explicit request when truthy
(`vol_nums = self.parser.manga.all_volume_numbers() if not vol_nums else vol_nums`). -/
def resolve_vol_nums (all_volume_numbers : List String)
    (vol_nums : Option (List String)) : List String :=
  match vol_nums with
  | none => all_volume_numbers
  | some l => if l = [] then all_volume_numbers else l

/-- `MangaBuilder.get_manga_volumes`, parent-process side. -/
def get_manga_volumes (mangaDir uploadRoot filetype : String)
    (manga_url : String) (all_volume_numbers : List String)
    (vol_nums : Option (List String))
    (title preferred_name : Option String) : Manga :=
  let name := sanitize_filename (pickName preferred_name (pickName title manga_url))
  let manga0 : Manga := ⟨name, filetype, []⟩
  (resolve_vol_nums all_volume_numbers vol_nums).foldl
    (add_volume_if_absent mangaDir uploadRoot) manga0

end MangaBuilder

/-! ### Helper lemmas: the lexicographic key order is a total preorder -/

theorem lexLt_asymm {α : Type} (lt : α → α → Bool) [DecidableEq α]
    (hasymm : ∀ a b, lt a b = true → lt b a = false) :
    ∀ l1 l2, lexLt lt l1 l2 = true → lexLt lt l2 l1 = false
  | [], [] => by simp [lexLt]
  | [], _ :: _ => by intro _; simp [lexLt]
  | _ :: _, [] => by simp [lexLt]
  | a :: as, b :: bs => by
    intro h
    simp only [lexLt, Bool.or_eq_true, Bool.and_eq_true, decide_eq_true_eq] at h
    simp only [lexLt, Bool.or_eq_false_iff, Bool.and_eq_false_iff,
      decide_eq_false_iff_not]
    rcases h with h | ⟨hab, h2⟩
    · refine ⟨hasymm a b h, Or.inl ?_⟩
      intro hba
      rw [hba] at h
      have hf := hasymm a a h
      rw [hf] at h
      exact absurd h (by simp)
    · subst hab
      have haa : lt a a = false := by
        cases haa : lt a a with
        | false => rfl
        | true =>
          have hf := hasymm a a haa
          rw [haa] at hf
          exact hf
      exact ⟨haa, Or.inr (lexLt_asymm lt hasymm as bs h2)⟩

theorem lexLt_trans {α : Type} (lt : α → α → Bool) [DecidableEq α]
    (htrans : ∀ a b c, lt a b = true → lt b c = true → lt a c = true) :
    ∀ l1 l2 l3, lexLt lt l1 l2 = true → lexLt lt l2 l3 = true → lexLt lt l1 l3 = true
  | _, [], [] => by intro _ h2; simp [lexLt] at h2
  | _, _ :: _, [] => by intro _ h2; simp [lexLt] at h2
  | [], [], _ :: _ => by intro h1 _; simp [lexLt] at h1
  | [], _ :: _, _ :: _ => by intro _ _; simp [lexLt]
  | _ :: _, [], _ :: _ => by intro h1 _; simp [lexLt] at h1
  | a :: as, b :: bs, c :: cs => by
    intro h1 h2
    simp only [lexLt, Bool.or_eq_true, Bool.and_eq_true, decide_eq_true_eq] at h1 h2 ⊢
    rcases h1 with h1 | ⟨rfl, h1⟩
    · rcases h2 with h2 | ⟨rfl, _⟩
      · exact Or.inl (htrans a b c h1 h2)
      · exact Or.inl h1
    · rcases h2 with h2 | ⟨rfl, h2⟩
      · exact Or.inl h2
      · exact Or.inr ⟨rfl, lexLt_trans lt htrans as bs cs h1 h2⟩

theorem lexLt_conn {α : Type} (lt : α → α → Bool) [DecidableEq α]
    (hconn : ∀ a b, lt a b = false → lt b a = false → a = b) :
    ∀ l1 l2, lexLt lt l1 l2 = false → lexLt lt l2 l1 = false → l1 = l2
  | [], [] => by intro _ _; rfl
  | [], _ :: _ => by simp [lexLt]
  | _ :: _, [] => by intro _ h2; simp [lexLt] at h2
  | a :: as, b :: bs => by
    intro h1 h2
    simp only [lexLt, Bool.or_eq_false_iff, Bool.and_eq_false_iff,
      decide_eq_false_iff_not] at h1 h2
    have hab : a = b := hconn a b h1.1 h2.1
    subst hab
    have h1r : lexLt lt as bs = false := by
      rcases h1.2 with h | h
      · exact absurd rfl h
      · exact h
    have h2r : lexLt lt bs as = false := by
      rcases h2.2 with h | h
      · exact absurd rfl h
      · exact h
    rw [lexLt_conn lt hconn as bs h1r h2r]

theorem natBoolLt_asymm : ∀ a b : Nat, (decide (a < b)) = true → (decide (b < a)) = false := by
  intro a b h
  simp only [decide_eq_true_eq] at h
  simp only [decide_eq_false_iff_not]
  omega

theorem natBoolLt_trans : ∀ a b c : Nat,
    (decide (a < b)) = true → (decide (b < c)) = true → (decide (a < c)) = true := by
  intro a b c h1 h2
  simp only [decide_eq_true_eq] at h1 h2
  simp only [decide_eq_true_eq]
  omega

theorem natBoolLt_conn : ∀ a b : Nat, (decide (a < b)) = false → (decide (b < a)) = false → a = b := by
  intro a b h1 h2
  simp only [decide_eq_false_iff_not] at h1 h2
  omega

theorem chunkLt_asymm : ∀ a b : NatChunk, chunkLt a b = true → chunkLt b a = false
  | .inl a, .inl b => fun h => natBoolLt_asymm a b h
  | .inl _, .inr _ => fun _ => rfl
  | .inr _, .inl _ => fun h => nomatch h
  | .inr a, .inr b => fun h => lexLt_asymm _ natBoolLt_asymm a b h

theorem chunkLt_trans : ∀ a b c : NatChunk,
    chunkLt a b = true → chunkLt b c = true → chunkLt a c = true
  | .inl a, .inl b, .inl c => fun h1 h2 => natBoolLt_trans a b c h1 h2
  | .inl _, .inl _, .inr _ => fun _ _ => rfl
  | .inl _, .inr _, .inl _ => fun _ h2 => nomatch h2
  | .inl _, .inr _, .inr _ => fun _ _ => rfl
  | .inr _, .inl _, _ => fun h1 _ => nomatch h1
  | .inr _, .inr _, .inl _ => fun _ h2 => nomatch h2
  | .inr a, .inr b, .inr c => fun h1 h2 => lexLt_trans _ natBoolLt_trans a b c h1 h2

theorem chunkLt_conn : ∀ a b : NatChunk,
    chunkLt a b = false → chunkLt b a = false → a = b
  | .inl a, .inl b => fun h1 h2 => congrArg Sum.inl (natBoolLt_conn a b h1 h2)
  | .inl _, .inr _ => fun h1 _ => nomatch h1
  | .inr _, .inl _ => fun _ h2 => nomatch h2
  | .inr a, .inr b => fun h1 h2 => congrArg Sum.inr (lexLt_conn _ natBoolLt_conn a b h1 h2)

theorem keyLt_asymm (a b : List NatChunk) : keyLt a b = true → keyLt b a = false :=
  lexLt_asymm chunkLt chunkLt_asymm a b

theorem keyLt_trans (a b c : List NatChunk) :
    keyLt a b = true → keyLt b c = true → keyLt a c = true :=
  lexLt_trans chunkLt chunkLt_trans a b c

theorem keyLt_conn (a b : List NatChunk) :
    keyLt a b = false → keyLt b a = false → a = b :=
  lexLt_conn chunkLt chunkLt_conn a b

theorem keyLe_total (a b : List NatChunk) : keyLe a b = true ∨ keyLe b a = true := by
  unfold keyLe
  cases h : keyLt b a with
  | false => exact Or.inl rfl
  | true => exact Or.inr (by simp [keyLt_asymm b a h])

theorem keyLe_trans (a b c : List NatChunk) :
    keyLe a b = true → keyLe b c = true → keyLe a c = true := by
  unfold keyLe
  intro h1 h2
  simp only [Bool.not_eq_true'] at h1 h2 ⊢
  cases hca : keyLt c a with
  | false => rfl
  | true =>
    cases hab : keyLt a b with
    | true => rw [keyLt_trans c a b hca hab] at h2; exact h2
    | false =>
      have : a = b := keyLt_conn a b hab h1
      subst this
      rw [hca] at h2
      exact h2

/-! ### Helper lemmas: the pages setter and the volume dict -/

theorem set_pages_go_ok : ∀ (md : List (Nat × Img)) (v : Volume),
    (∀ k ∈ md.map Prod.fst, v._pages.lookup k = none) →
    (md.map Prod.fst).Nodup →
    Volume.set_pages.go v md =
      ({ v with _pages := v._pages ++ md.map (fun p => (p.1, Page.mk p.1 p.2)) }, none)
  | [], v => by
    intro _ _
    simp [Volume.set_pages.go]
  | (n, img) :: rest, v => by
    intro hdisj hnodup
    simp only [List.map_cons, List.mem_cons, List.nodup_cons] at hdisj hnodup
    have hn : v._pages.lookup n = none := hdisj n (Or.inl rfl)
    have hstep : v.add_page n img =
        .ok { v with _pages := v._pages ++ [(n, Page.mk n img)] } := by
      simp [Volume.add_page, Volume.page, hn]
    simp only [Volume.set_pages.go, hstep]
    rw [set_pages_go_ok rest _ ?_ hnodup.2]
    · simp
    · intro k hk
      have hkv : v._pages.lookup k = none := hdisj k (Or.inr hk)
      have hkn : k ≠ n := fun h => hnodup.1 (h ▸ hk)
      simp [List.lookup_append, hkv, List.lookup_cons, beq_false_of_ne hkn]

theorem set_pages_go_err : ∀ (md : List (Nat × Img)) (v : Volume),
    ¬ ((md.map Prod.fst).Nodup ∧ ∀ k ∈ md.map Prod.fst, v._pages.lookup k = none) →
    (Volume.set_pages.go v md).2.isSome
  | [], v => by
    intro h
    exact absurd ⟨List.nodup_nil, by simp⟩ h
  | (n, img) :: rest, v => by
    intro h
    match hn : v._pages.lookup n with
    | some p =>
      have hstep : v.add_page n img =
          .error (.pageAlreadyPresent ("Page " ++ toString n ++ " is already present")) := by
        simp [Volume.add_page, Volume.page, hn]
      simp [Volume.set_pages.go, hstep]
    | none =>
      have hstep : v.add_page n img =
          .ok { v with _pages := v._pages ++ [(n, Page.mk n img)] } := by
        simp [Volume.add_page, Volume.page, hn]
      simp only [Volume.set_pages.go, hstep]
      apply set_pages_go_err rest
      intro ⟨hnd, hdj⟩
      apply h
      constructor
      · simp only [List.map_cons, List.nodup_cons]
        refine ⟨fun hmem => ?_, hnd⟩
        have := hdj n hmem
        simp [List.lookup_append, List.lookup_cons] at this
      · intro k hk
        simp only [List.map_cons, List.mem_cons] at hk
        rcases hk with rfl | hk
        · exact hn
        · have := hdj k hk
          simp only [List.lookup_append] at this
          exact (Option.or_eq_none.mp this).1

theorem set_pages_ok (v : Volume) (md : List (Nat × Img))
    (hnodup : (md.map Prod.fst).Nodup) :
    v.set_pages md =
      ({ v with _pages := md.map (fun p => (p.1, Page.mk p.1 p.2)) }, none) := by
  unfold Volume.set_pages
  rw [set_pages_go_ok md _ (by simp) hnodup]
  simp

theorem set_pages_err (v : Volume) (md : List (Nat × Img))
    (hdup : ¬ (md.map Prod.fst).Nodup) :
    (v.set_pages md).2.isSome := by
  unfold Volume.set_pages
  exact set_pages_go_err md _ (fun h => hdup h.1)

theorem add_volume_if_absent_lookup (mangaDir uploadRoot : String)
    (m : Manga) (v v2 : String) :
    (((MangaBuilder.add_volume_if_absent mangaDir uploadRoot m v2).volumes_dict.lookup
      v).isSome) ↔ (v = v2 ∨ (m.volumes_dict.lookup v).isSome) := by
  unfold MangaBuilder.add_volume_if_absent
  cases hp : (m.volumes_dict.lookup v2).isSome with
  | true =>
    simp only [hp, if_true]
    constructor
    · exact fun h => Or.inr h
    · rintro (rfl | h)
      · exact hp
      · exact h
  | false =>
    have hadd : m.add_volume mangaDir uploadRoot v2 = .ok
        { m with _volumes := m._volumes ++
            [(v2, { number := v2
                    file_path := m.volume_path mangaDir v2
                    upload_path := m.volume_upload_path uploadRoot v2
                    _pages := [] })] } := by
      simp [Manga.add_volume, hp]
    simp only [hp, if_false, Bool.false_eq_true, hadd, Manga.volumes_dict,
      List.lookup_append, Option.isSome_or, Bool.or_eq_true]
    by_cases hvv : v = v2
    · subst hvv
      simp [List.lookup_cons]
    · simp [List.lookup_cons, beq_false_of_ne hvv, hvv]

theorem foldl_add_volume_if_absent_lookup (mangaDir uploadRoot : String) :
    ∀ (l : List String) (m : Manga) (v : String),
    (((l.foldl (MangaBuilder.add_volume_if_absent mangaDir uploadRoot) m).volumes_dict.lookup
      v).isSome) ↔ (v ∈ l ∨ (m.volumes_dict.lookup v).isSome)
  | [], m, v => by simp
  | x :: xs, m, v => by
    simp only [List.foldl_cons, List.mem_cons]
    rw [foldl_add_volume_if_absent_lookup mangaDir uploadRoot xs _ v,
      add_volume_if_absent_lookup]
    tauto

theorem set_pages_go_file_path : ∀ (md : List (Nat × Img)) (v : Volume),
    (Volume.set_pages.go v md).1.file_path = v.file_path
  | [], v => rfl
  | (n, img) :: rest, v => by
    unfold Volume.set_pages.go
    cases h : v.add_page n img with
    | ok v2 =>
      have h2 : v2.file_path = v.file_path := by
        unfold Volume.add_page at h
        by_cases hp : ((v.page.lookup n).isSome : Bool) <;> simp [hp] at h
        rw [← h]
      rw [set_pages_go_file_path rest v2, h2]
    | error e => rfl

/-- The volume stored and saved by the success path of `_get_volume_data`:
id, deterministic paths, and the kept (non-empty) pages in fetch order. -/
def keptVolume (mangaDir uploadRoot name ft vol : String)
    (pages_data : List (Nat × Img)) : Volume :=
  { number := vol
    file_path := Manga.volume_path mangaDir ⟨name, ft, []⟩ vol
    upload_path := Manga.volume_upload_path uploadRoot ⟨name, ft, []⟩ vol
    _pages := (pages_data.filter (fun p => ¬ p.2 = [])).map
      (fun p => (p.1, Page.mk p.1 p.2)) }

/-- Behaviour of `_get_volume_data` on the main path: output path not on
disk, catalog answers with a non-empty list of locators, and the fetched
page indices are pairwise distinct (the well-formed-catalog case; the
duplicate case is `getVolumeData_dup_aborts`).  The builder's `Manga` is
the fresh one each worker process starts from.  The call makes exactly one
catalog call and one fetch per locator, computes the completeness flag,
logs the indices of the empty pages, keeps exactly the non-empty pages, and
writes the container (appending its path to the filesystem) exactly when
the save method exists and emits output. -/
theorem getVolumeData_run (mangaDir uploadRoot : String)
    (page_urls : String → Option (List (Nat × String)))
    (fetch : Nat × String → Nat × Img) (name ft : String) (fs : List String)
    (vol : String) (urls : List (Nat × String))
    (hns : Manga.volume_exists fs mangaDir ⟨name, ft, []⟩ vol = false)
    (hcat : page_urls vol = some urls) (hne : urls ≠ [])
    (hnodup : (((urls.map fetch)).map Prod.fst).Nodup) :
    MangaBuilder.getVolumeData mangaDir uploadRoot page_urls fetch ft ⟨name, ft, []⟩ fs vol =
      { fs := if ((MangaBuilder.save_volume ft
            (keptVolume mangaDir uploadRoot name ft vol (urls.map fetch))).join).isSome
          then fs ++ [(keptVolume mangaDir uploadRoot name ft vol (urls.map fetch)).file_path]
          else fs
        manga := ⟨name, ft, [(vol, keptVolume mangaDir uploadRoot name ft vol (urls.map fetch))]⟩
        catalogCalls := 1
        pageFetches := urls.length
        volumeComplete := some (!(urls.map fetch).any (fun p => p.2 = []))
        reportedMissing := ((urls.map fetch).filter (fun p => p.2 = [])).map Prod.fst
        wrote := (MangaBuilder.save_volume ft
          (keptVolume mangaDir uploadRoot name ft vol (urls.map fetch))).join
        aborted := none
        ret := some vol } := by
  have hnem : urls.map fetch ≠ [] := by
    intro h
    exact hne (List.map_eq_nil_iff.mp h)
  have hadd : ∀ b : Bool, (Manga.mk name ft []).add_volume mangaDir uploadRoot vol b = .ok
      (Manga.mk name ft [(vol, Volume.mk vol
        (Manga.volume_path mangaDir (Manga.mk name ft []) vol)
        (Manga.volume_upload_path uploadRoot (Manga.mk name ft []) vol) [])]) := by
    intro b
    simp [Manga.add_volume, Manga.volumes_dict]
  unfold MangaBuilder.getVolumeData
  simp only [hns, Bool.false_eq_true, if_false, hcat]
  rw [if_neg hne, if_neg hnem]
  cases ham : (urls.map fetch).any (fun p => p.2 = []) with
  | true =>
    have hkeys : ((((urls.map fetch)).filter (fun p => !decide (p.2 = []))).map Prod.fst).Nodup :=
      ((List.filter_sublist _).map Prod.fst).nodup hnodup
    simp only [if_true, Bool.not_true, decide_not, hadd, Manga.volumes_dict,
      List.lookup_cons_self, set_pages_ok _ _ hkeys, keptVolume]
    split <;> rename_i hsv <;> simp [hsv]
  | false =>
    have hfself : (urls.map fetch).filter (fun p => !decide (p.2 = [])) = urls.map fetch := by
      rw [List.filter_eq_self]
      intro a ha
      have := List.any_eq_false.mp ham a ha
      simpa using this
    have hfnil : (urls.map fetch).filter (fun p => p.2 = []) = [] := by
      rw [List.filter_eq_nil_iff]
      exact List.any_eq_false.mp ham
    simp only [if_false, Bool.false_eq_true, Bool.not_false, decide_not, hadd,
      Manga.volumes_dict, List.lookup_cons_self, set_pages_ok _ _ hnodup, keptVolume,
      hfself, hfnil]
    split <;> rename_i hsv <;> simp only [hsv] <;> simp

/-- When the fetched pages that survive the empty-page filter contain a
duplicate page index, the pages setter raises `PageAlreadyPresent`; the
`except` clause of `_get_volume_data` does not catch it, so the call aborts
with the exception escaping, and nothing is written to disk. -/
theorem getVolumeData_dup_aborts (mangaDir uploadRoot : String)
    (page_urls : String → Option (List (Nat × String)))
    (fetch : Nat × String → Nat × Img) (name ft : String) (fs : List String)
    (vol : String) (urls : List (Nat × String))
    (hns : Manga.volume_exists fs mangaDir ⟨name, ft, []⟩ vol = false)
    (hcat : page_urls vol = some urls) (hne : urls ≠ [])
    (hdup : ¬ ((((urls.map fetch).filter (fun p => !decide (p.2 = []))).map Prod.fst).Nodup)) :
    ((MangaBuilder.getVolumeData mangaDir uploadRoot page_urls fetch ft
      ⟨name, ft, []⟩ fs vol).aborted).isSome = true ∧
    (MangaBuilder.getVolumeData mangaDir uploadRoot page_urls fetch ft
      ⟨name, ft, []⟩ fs vol).fs = fs := by
  have hnem : urls.map fetch ≠ [] := by
    intro h
    exact hne (List.map_eq_nil_iff.mp h)
  have hadd : ∀ b : Bool, (Manga.mk name ft []).add_volume mangaDir uploadRoot vol b = .ok
      (Manga.mk name ft [(vol, Volume.mk vol
        (Manga.volume_path mangaDir (Manga.mk name ft []) vol)
        (Manga.volume_upload_path uploadRoot (Manga.mk name ft []) vol) [])]) := by
    intro b
    simp [Manga.add_volume, Manga.volumes_dict]
  unfold MangaBuilder.getVolumeData
  simp only [hns, Bool.false_eq_true, if_false, hcat]
  rw [if_neg hne, if_neg hnem]
  cases ham : (urls.map fetch).any (fun p => p.2 = []) with
  | true =>
    obtain ⟨e, he⟩ := Option.isSome_iff_exists.mp
      (set_pages_err (Volume.mk vol
        (Manga.volume_path mangaDir (Manga.mk name ft []) vol)
        (Manga.volume_upload_path uploadRoot (Manga.mk name ft []) vol) [])
        ((urls.map fetch).filter (fun p => !decide (p.2 = []))) hdup)
    simp only [if_true, Bool.not_true, decide_not, hadd, Manga.volumes_dict,
      List.lookup_cons_self, he]
    simp
  | false =>
    have hfself : (urls.map fetch).filter (fun p => !decide (p.2 = [])) = urls.map fetch := by
      rw [List.filter_eq_self]
      intro a ha
      have := List.any_eq_false.mp ham a ha
      simpa using this
    rw [hfself] at hdup
    obtain ⟨e, he⟩ := Option.isSome_iff_exists.mp
      (set_pages_err (Volume.mk vol
        (Manga.volume_path mangaDir (Manga.mk name ft []) vol)
        (Manga.volume_upload_path uploadRoot (Manga.mk name ft []) vol) [])
        (urls.map fetch) hdup)
    simp only [if_false, Bool.false_eq_true, Bool.not_false, decide_not, hadd,
      Manga.volumes_dict, List.lookup_cons_self, he]
    simp

/-! ### The claims -/

/-- C10: `Volume.total_pages` takes the maximum of the page dict's key set,
so on a volume whose page map is empty it raises (`none` in the embedding,
modelling Python's `ValueError` from `max` of an empty sequence) rather than
returning 0; with at least one page attached it returns a value. -/
theorem claim_C10 : ∀ v : Volume,
    (v._pages = [] → v.total_pages = none) ∧
    (v._pages ≠ [] → (v.total_pages).isSome = true) := by
  intro v
  constructor
  · intro h
    simp [Volume.total_pages, h]
  · intro h
    match hv : v._pages with
    | [] => exact absurd hv h
    | kv :: rest => simp [Volume.total_pages, hv]

/-- Witness for C10 at concrete volumes: an empty page map gives `none`
(the raise), a one-page map gives a value. -/
theorem claim_C10_witness :
    (Volume.mk "1" "f" "u" []).total_pages = none ∧
    ((Volume.mk "1" "f" "u" [(3, Page.mk 3 [1])]).total_pages).isSome = true :=
  ⟨(claim_C10 (Volume.mk "1" "f" "u" [])).1 rfl,
   (claim_C10 (Volume.mk "1" "f" "u" [(3, Page.mk 3 [1])])).2 (by decide)⟩

/-- C2: `BaseMangaParser.page_data` always returns a pair whose first
component is the given page index (it is a total function, never raising);
when all 5 bounded attempts fail it returns the empty-bytes sentinel, and
when the retrieved bytes do not decode as an image it also returns the
empty-bytes sentinel. -/
theorem claim_C2 : ∀ (responses : Nat → Option Img) (valid : Img → Bool)
    (page_url : Nat × String),
    (BaseMangaParser.page_data responses valid page_url).1 = page_url.1 ∧
    ((∀ k < 5, responses k = none) →
      (BaseMangaParser.page_data responses valid page_url).2 = []) ∧
    (∀ d, (List.range 5).findSome? responses = some d → valid d = false →
      (BaseMangaParser.page_data responses valid page_url).2 = []) := by
  intro responses valid pu
  refine ⟨?_, ?_, ?_⟩
  · unfold BaseMangaParser.page_data
    cases h : (List.range 5).findSome? responses with
    | none => rfl
    | some d => by_cases hv : valid d = true <;> simp [hv]
  · intro hall
    have hnone : (List.range 5).findSome? responses = none := by
      rw [List.findSome?_eq_none_iff]
      intro k hk
      exact hall k (List.mem_range.mp hk)
    unfold BaseMangaParser.page_data
    rw [hnone]
  · intro d hd hvd
    unfold BaseMangaParser.page_data
    rw [hd]
    simp [hvd]

/-- Witness for C2: with a locator that fails on every attempt, the fetch of
page 3 returns `(3, empty)`. -/
theorem claim_C2_witness :
    (∀ k < 5, (fun _ : Nat => (none : Option Img)) k = none) ∧
    (BaseMangaParser.page_data (fun _ => none) (fun _ => true) (3, "url")).2 = [] ∧
    (BaseMangaParser.page_data (fun _ => none) (fun _ => true) (3, "url")).1 = 3 :=
  ⟨fun _ _ => rfl,
   (claim_C2 (fun _ => none) (fun _ => true) (3, "url")).2.1 (fun _ _ => rfl),
   (claim_C2 (fun _ => none) (fun _ => true) (3, "url")).1⟩

/-- Counterexample to C6 as stated: the legacy assemblers of
`scraper/download.py` are not no-ops on a volume with an empty page map —
`Download._to_cbz` opens `zipfile.ZipFile(path, "w")` unconditionally,
creating an empty archive file, and `Download._to_pdf` unconditionally opens
a canvas and invokes `c.save()`. -/
theorem claim_C6_counterexample :
    Download.to_cbz "dragon-ball" (Volume.mk "1" "/tmp/o.cbz" "/up/o.cbz" []) = some [] ∧
    Download.to_pdf (Volume.mk "1" "/tmp/o.pdf" "/up/o.pdf" []) = some [] := by
  constructor <;> rfl

/-- C6 (amended): in the current pipeline (`MangaBuilder`) the assemble
operation in both modes is a no-op on a volume with an empty page map:
`_to_pdf` and `_to_cbz` return without creating any output file. -/
theorem claim_C6 : ∀ v : Volume, v._pages = [] →
    MangaBuilder.to_pdf v = none ∧ MangaBuilder.to_cbz v = none := by
  intro v h
  have hp : v.pages = [] := by simp [Volume.pages, h]
  exact ⟨by simp [MangaBuilder.to_pdf, hp], by simp [MangaBuilder.to_cbz, hp]⟩

/-- Witness for C6 at a concrete empty volume. -/
theorem claim_C6_witness :
    (Volume.mk "1" "f" "u" [])._pages = [] ∧
    MangaBuilder.to_pdf (Volume.mk "1" "f" "u" []) = none ∧
    MangaBuilder.to_cbz (Volume.mk "1" "f" "u" []) = none :=
  ⟨rfl, (claim_C6 (Volume.mk "1" "f" "u" []) rfl).1,
   (claim_C6 (Volume.mk "1" "f" "u" []) rfl).2⟩

/-- Counterexample to C1 as stated: the legacy image-sequence assembler
`Download._to_cbz` names the entry for page 7 of volume "12"
`dragon-ball_12_page_0.jpg` (manga name first, 0-based enumeration
position, no zero padding), not the claimed `007_12.jpg`. -/
theorem claim_C1_counterexample :
    cbzEntryName 7 "12" = "007_12.jpg" ∧
    (Download.to_cbz "dragon-ball" (Volume.mk "12" "f" "u" [(7, Page.mk 7 [9])])).map
      (fun es => es.map Prod.fst) = some ["dragon-ball_12_page_0.jpg"] ∧
    "dragon-ball_12_page_0.jpg" ≠ "007_12.jpg" := by
  refine ⟨by decide, by decide, by decide⟩

/-- C1 (amended): in the current pipeline, `MangaBuilder._to_cbz` names the
archive entry of every page `{page number as %03d}_{volume id}.jpg`, one
entry per page in page order; e.g. page 7 of volume "12" is `007_12.jpg`,
and the zero padding is to width 3 (wider numbers keep all their digits). -/
theorem claim_C1 : (∀ (v : Volume) (es : List (String × Img)),
      MangaBuilder.to_cbz v = some es →
      es = v.pages.map (fun p => (cbzEntryName p.number v.number, p.img))) ∧
    cbzEntryName 7 "12" = "007_12.jpg" ∧
    cbzEntryName 12 "7" = "012_7.jpg" ∧
    cbzEntryName 1234 "7" = "1234_7.jpg" := by
  refine ⟨?_, by decide, by decide, by decide⟩
  intro v es h
  unfold MangaBuilder.to_cbz at h
  by_cases hp : v.pages = [] <;> simp [hp] at h
  exact h.symm

/-- Witness for C1 at the spec's own example: volume "12" with pages 1 and 2
yields entries named `001_12.jpg` and `002_12.jpg`, in that order. -/
theorem claim_C1_witness :
    MangaBuilder.to_cbz (Volume.mk "12" "f" "u" [(1, Page.mk 1 [1]), (2, Page.mk 2 [2])]) =
      some [("001_12.jpg", [1]), ("002_12.jpg", [2])] ∧
    [("001_12.jpg", ([1] : Img)), ("002_12.jpg", [2])] =
      (Volume.mk "12" "f" "u" [(1, Page.mk 1 [1]), (2, Page.mk 2 [2])]).pages.map
        (fun p => (cbzEntryName p.number
          (Volume.mk "12" "f" "u" [(1, Page.mk 1 [1]), (2, Page.mk 2 [2])]).number, p.img)) :=
  ⟨by decide,
   claim_C1.1 (Volume.mk "12" "f" "u" [(1, Page.mk 1 [1]), (2, Page.mk 2 [2])]) _ (by decide)⟩

/-- C8: `Manga.volumes` returns the held volumes in natural alphanumeric
order of their ids — maximal digit runs compare as numbers, other runs as
lowercased text — and is a permutation of the volume dict's values; in
particular ids "2", "10", "1" come out ordered "1", "2", "10" (never the
lexical "1", "10", "2"), because "9"-like numeric runs sort numerically
("9" before "10"). -/
theorem claim_C8 :
    (∀ m : Manga, List.Sorted volNatLe m.volumes ∧
      m.volumes.Perm (m._volumes.map Prod.snd)) ∧
    ((MangaBuilder.get_manga_volumes "/m" "/u" "pdf" "url" [] (some ["2", "10", "1"])
        none none).volumes.map Volume.number = ["1", "2", "10"]) ∧
    ((MangaBuilder.get_manga_volumes "/m" "/u" "pdf" "url" [] (some ["2", "10", "1"])
        none none).volumes.map Volume.number ≠ ["1", "10", "2"]) ∧
    keyLe (alphanum_key "9") (alphanum_key "10") = true ∧
    keyLt (alphanum_key "10") (alphanum_key "9") = false := by
  refine ⟨?_, by decide, by decide, by decide, by decide⟩
  intro m
  haveI : IsTotal Volume volNatLe := ⟨fun a b => keyLe_total _ _⟩
  haveI : IsTrans Volume volNatLe := ⟨fun _ _ _ h1 h2 => keyLe_trans _ _ _ h1 h2⟩
  exact ⟨List.sorted_insertionSort volNatLe _, List.perm_insertionSort volNatLe _⟩

/-- C9: the `Manga` returned by `get_manga_volumes` holds a volume entry
exactly for the resolved volume ids — every requested id is represented
even though no worker result (bytes, skip) ever reaches the parent map. -/
theorem claim_C9 : ∀ (mangaDir uploadRoot filetype manga_url : String)
    (all : List String) (vol_nums : Option (List String))
    (title preferred_name : Option String) (v : String),
    v ∈ MangaBuilder.resolve_vol_nums all vol_nums →
    ((MangaBuilder.get_manga_volumes mangaDir uploadRoot filetype manga_url all
      vol_nums title preferred_name).volumes_dict.lookup v).isSome = true := by
  intro mangaDir uploadRoot filetype manga_url all vol_nums title preferred_name v hv
  unfold MangaBuilder.get_manga_volumes
  rw [foldl_add_volume_if_absent_lookup]
  exact Or.inl hv

/-- Witness for C9: id "2" is requested, skipped-like (no worker output
exists in the model), and still present in the returned map. -/
theorem claim_C9_witness :
    "2" ∈ MangaBuilder.resolve_vol_nums [] (some ["1", "2"]) ∧
    ((MangaBuilder.get_manga_volumes "/m" "/u" "pdf" "url" [] (some ["1", "2"])
      none none).volumes_dict.lookup "2").isSome = true :=
  ⟨by decide, claim_C9 "/m" "/u" "pdf" "url" [] (some ["1", "2"]) none none "2" (by decide)⟩

/-- C4: the ordered page view `Volume.pages` is sorted ascending by page
index whatever the insertion order of the page map (it is a sorted
permutation of the stored pages, and two page maps holding the same pages
— with distinct indices — yield the identical view), and both assemblers
emit pages/entries exactly in that order. -/
theorem claim_C4 : ∀ v : Volume,
    List.Sorted (α := Nat) (· ≤ ·) (v.pages.map Page.number) ∧
    List.Sorted pageLe v.pages ∧
    v.pages.Perm (v._pages.map Prod.snd) ∧
    (∀ out, MangaBuilder.to_pdf v = some out → out = v.pages.map Page.img) ∧
    (∀ es, MangaBuilder.to_cbz v = some es → es.map Prod.snd = v.pages.map Page.img) ∧
    (∀ v2 : Volume, (v._pages.map Prod.snd).Perm (v2._pages.map Prod.snd) →
      ((v._pages.map Prod.snd).map Page.number).Nodup → v.pages = v2.pages) := by
  intro v
  have hsorted : List.Sorted pageLe v.pages := List.sorted_insertionSort pageLe _
  have hperm : v.pages.Perm (v._pages.map Prod.snd) := List.perm_insertionSort pageLe _
  refine ⟨List.pairwise_map.mpr hsorted, hsorted, hperm, ?_, ?_, ?_⟩
  · intro out h
    unfold MangaBuilder.to_pdf at h
    by_cases hp : v.pages = [] <;> simp [hp] at h
    exact h.symm
  · intro es h
    unfold MangaBuilder.to_cbz at h
    by_cases hp : v.pages = [] <;> simp [hp] at h
    subst h
    simp [List.map_map]
  · intro v2 hpp hnodup
    have hsorted2 : List.Sorted pageLe v2.pages := List.sorted_insertionSort pageLe _
    have hperm2 : v2.pages.Perm (v2._pages.map Prod.snd) := List.perm_insertionSort pageLe _
    have hp : v.pages.Perm v2.pages := (hperm.trans hpp).trans hperm2.symm
    have hnodup1 : (v.pages.map Page.number).Nodup :=
      ((hperm.map Page.number).nodup_iff).mpr hnodup
    have hnodup2 : (v2.pages.map Page.number).Nodup :=
      ((hp.map Page.number).nodup_iff).mp hnodup1
    have hstrict : ∀ (l : List Page), List.Sorted pageLe l → (l.map Page.number).Nodup →
        List.Sorted (fun a b : Page => a.number < b.number) l := by
      intro l hs hn
      have hne : l.Pairwise (fun a b : Page => a.number ≠ b.number) :=
        List.pairwise_map.mp hn
      exact (hs.and hne).imp (fun h => Nat.lt_of_le_of_ne h.1 h.2)
    haveI : IsAntisymm Page (fun a b : Page => a.number < b.number) :=
      ⟨fun _ _ h1 h2 => absurd (Nat.lt_trans h1 h2) (Nat.lt_irrefl _)⟩
    exact List.eq_of_perm_of_sorted hp (hstrict _ hsorted hnodup1)
      (hstrict _ hsorted2 hnodup2)

/-- Witness for C4: a volume whose pages were inserted out of order (2 then
1) is assembled as a document with page 1's image before page 2's. -/
theorem claim_C4_witness :
    MangaBuilder.to_pdf (Volume.mk "1" "f" "u" [(2, Page.mk 2 [2]), (1, Page.mk 1 [1])]) =
      some [[1], [2]] ∧
    ([[1], [2]] : List Img) =
      (Volume.mk "1" "f" "u" [(2, Page.mk 2 [2]), (1, Page.mk 1 [1])]).pages.map Page.img :=
  ⟨by decide,
   (claim_C4 (Volume.mk "1" "f" "u" [(2, Page.mk 2 [2]), (1, Page.mk 1 [1])])).2.2.2.1
     [[1], [2]] (by decide)⟩

/-- Counterexample to C3 as stated: when every page fetch of the first
acquisition fails, no container is written, so the second acquisition of
the same volume id (fresh worker `Manga`, unchanged catalog) contacts the
catalog and fetches again — the first call performs network I/O (1 catalog
call, 1 page fetch) and the second call repeats it instead of performing
none. -/
theorem claim_C3_counterexample :
    (MangaBuilder.getVolumeData "/m" "/u" (fun _ => some [(1, "u")])
      (fun p => (p.1, [])) "pdf" ⟨"X", "pdf", []⟩ [] "1").catalogCalls = 1 ∧
    (MangaBuilder.getVolumeData "/m" "/u" (fun _ => some [(1, "u")])
      (fun p => (p.1, [])) "pdf" ⟨"X", "pdf", []⟩ [] "1").pageFetches = 1 ∧
    (MangaBuilder.getVolumeData "/m" "/u" (fun _ => some [(1, "u")])
      (fun p => (p.1, [])) "pdf" ⟨"X", "pdf", []⟩
      ((MangaBuilder.getVolumeData "/m" "/u" (fun _ => some [(1, "u")])
        (fun p => (p.1, [])) "pdf" ⟨"X", "pdf", []⟩ [] "1").fs) "1").catalogCalls = 1 := by
  refine ⟨by decide, by decide, by decide⟩

/-- C3 (amended): when the deterministic output path already exists on
disk, `_get_volume_data` terminates immediately with no catalog call, no
page fetch and no state change; hence acquiring the same volume id twice in
sequence performs network I/O only on the first call provided the first
call wrote the output container — if the first call wrote nothing (all
pages failed, unknown filetype, …), the second call repeats the catalog
call and fetches. -/
theorem claim_C3 :
    (∀ (mangaDir uploadRoot : String)
      (page_urls : String → Option (List (Nat × String)))
      (fetch : Nat × String → Nat × Img) (filetype : String)
      (manga : Manga) (fs : List String) (vol : String),
      Manga.volume_exists fs mangaDir manga vol = true →
      MangaBuilder.getVolumeData mangaDir uploadRoot page_urls fetch filetype manga fs vol =
        ⟨fs, manga, 0, 0, none, [], none, none, none⟩) ∧
    (∀ (mangaDir uploadRoot : String)
      (page_urls : String → Option (List (Nat × String)))
      (fetch : Nat × String → Nat × Img) (name ft : String)
      (fs : List String) (vol : String) (urls : List (Nat × String)),
      Manga.volume_exists fs mangaDir ⟨name, ft, []⟩ vol = false →
      page_urls vol = some urls → urls ≠ [] →
      ((urls.map fetch).map Prod.fst).Nodup →
      ((MangaBuilder.getVolumeData mangaDir uploadRoot page_urls fetch ft
        ⟨name, ft, []⟩ fs vol).wrote).isSome = true →
      MangaBuilder.getVolumeData mangaDir uploadRoot page_urls fetch ft ⟨name, ft, []⟩
        ((MangaBuilder.getVolumeData mangaDir uploadRoot page_urls fetch ft
          ⟨name, ft, []⟩ fs vol).fs) vol =
        ⟨(MangaBuilder.getVolumeData mangaDir uploadRoot page_urls fetch ft
          ⟨name, ft, []⟩ fs vol).fs, ⟨name, ft, []⟩, 0, 0, none, [], none, none, none⟩) := by
  have hskip : ∀ (mangaDir uploadRoot : String)
      (page_urls : String → Option (List (Nat × String)))
      (fetch : Nat × String → Nat × Img) (filetype : String)
      (manga : Manga) (fs : List String) (vol : String),
      Manga.volume_exists fs mangaDir manga vol = true →
      MangaBuilder.getVolumeData mangaDir uploadRoot page_urls fetch filetype manga fs vol =
        ⟨fs, manga, 0, 0, none, [], none, none, none⟩ := by
    intro mangaDir uploadRoot page_urls fetch filetype manga fs vol h
    unfold MangaBuilder.getVolumeData
    simp [h]
  refine ⟨hskip, ?_⟩
  intro mangaDir uploadRoot page_urls fetch name ft fs vol urls hns hcat hne hnodup hw
  have h1 := getVolumeData_run mangaDir uploadRoot page_urls fetch name ft fs vol urls
    hns hcat hne hnodup
  rw [h1] at hw ⊢
  dsimp only at hw ⊢
  rw [if_pos hw]
  exact hskip mangaDir uploadRoot page_urls fetch ft ⟨name, ft, []⟩ _ vol
    (by simp [Manga.volume_exists, keptVolume])

/-- Witness for C3 at concrete inputs: a volume whose path is on disk is
skipped outright, and after a successful first acquisition the second
acquisition is a no-network skip. -/
theorem claim_C3_witness :
    Manga.volume_exists ["/m/X/X_chapter_1.pdf"] "/m" ⟨"X", "pdf", []⟩ "1" = true ∧
    MangaBuilder.getVolumeData "/m" "/u" (fun _ => some [(1, "u")])
      (fun p => (p.1, [7])) "pdf" ⟨"X", "pdf", []⟩ ["/m/X/X_chapter_1.pdf"] "1" =
      ⟨["/m/X/X_chapter_1.pdf"], ⟨"X", "pdf", []⟩, 0, 0, none, [], none, none, none⟩ ∧
    MangaBuilder.getVolumeData "/m" "/u" (fun _ => some [(1, "u")])
      (fun p => (p.1, [7])) "pdf" ⟨"X", "pdf", []⟩
      ((MangaBuilder.getVolumeData "/m" "/u" (fun _ => some [(1, "u")])
        (fun p => (p.1, [7])) "pdf" ⟨"X", "pdf", []⟩ [] "1").fs) "1" =
      ⟨(MangaBuilder.getVolumeData "/m" "/u" (fun _ => some [(1, "u")])
        (fun p => (p.1, [7])) "pdf" ⟨"X", "pdf", []⟩ [] "1").fs,
        ⟨"X", "pdf", []⟩, 0, 0, none, [], none, none, none⟩ :=
  ⟨by decide,
   claim_C3.1 "/m" "/u" (fun _ => some [(1, "u")]) (fun p => (p.1, [7])) "pdf"
     ⟨"X", "pdf", []⟩ ["/m/X/X_chapter_1.pdf"] "1" (by decide),
   claim_C3.2 "/m" "/u" (fun _ => some [(1, "u")]) (fun p => (p.1, [7])) "X" "pdf"
     [] "1" [(1, "u")] (by decide) rfl (by decide) (by decide) (by decide)⟩

/-- Counterexample to C5 as stated: with one locator whose fetch always
fails, the premise holds (the fetched results include an empty-bytes page:
missing index 1 is reported and the volume is marked not complete), yet
nothing is assembled — no container output is produced and the filesystem
is unchanged — while the claim asserts the volume "is still assembled". -/
theorem claim_C5_counterexample :
    (MangaBuilder.getVolumeData "/m" "/u" (fun _ => some [(1, "u")])
      (fun p => (p.1, [])) "pdf" ⟨"X", "pdf", []⟩ [] "1").reportedMissing = [1] ∧
    (MangaBuilder.getVolumeData "/m" "/u" (fun _ => some [(1, "u")])
      (fun p => (p.1, [])) "pdf" ⟨"X", "pdf", []⟩ [] "1").volumeComplete = some false ∧
    (MangaBuilder.getVolumeData "/m" "/u" (fun _ => some [(1, "u")])
      (fun p => (p.1, [])) "pdf" ⟨"X", "pdf", []⟩ [] "1").wrote = none ∧
    (MangaBuilder.getVolumeData "/m" "/u" (fun _ => some [(1, "u")])
      (fun p => (p.1, [])) "pdf" ⟨"X", "pdf", []⟩ [] "1").fs = [] := by
  refine ⟨by decide, by decide, by decide, by decide⟩

/-- C5 (amended): on an acquired volume, the completeness flag is `true`
iff every catalog-returned locator yielded non-empty bytes; the indices of
the empty pages are reported; the volume aggregate holds exactly the pages
with non-empty bytes; and in both output modes (paginated document and
image-sequence archive) the volume is still assembled into a container
holding exactly the non-empty pages provided at least one page is non-empty
— if every page came back empty, no container is written at all (per the
empty no-op rule). -/
theorem claim_C5 : ∀ (mangaDir uploadRoot : String)
    (page_urls : String → Option (List (Nat × String)))
    (fetch : Nat × String → Nat × Img) (name ft : String) (fs : List String)
    (vol : String) (urls : List (Nat × String)),
    Manga.volume_exists fs mangaDir ⟨name, ft, []⟩ vol = false →
    page_urls vol = some urls → urls ≠ [] →
    ((urls.map fetch).map Prod.fst).Nodup →
    (((MangaBuilder.getVolumeData mangaDir uploadRoot page_urls fetch ft
        ⟨name, ft, []⟩ fs vol).volumeComplete = some true) ↔
      ∀ p ∈ urls.map fetch, p.2 ≠ []) ∧
    ((MangaBuilder.getVolumeData mangaDir uploadRoot page_urls fetch ft
        ⟨name, ft, []⟩ fs vol).reportedMissing =
      ((urls.map fetch).filter (fun p => p.2 = [])).map Prod.fst) ∧
    ((MangaBuilder.getVolumeData mangaDir uploadRoot page_urls fetch ft
        ⟨name, ft, []⟩ fs vol).manga.volumes_dict.lookup vol =
      some (keptVolume mangaDir uploadRoot name ft vol (urls.map fetch))) ∧
    ((ft = "pdf" ∨ ft = "cbz") → (urls.map fetch).filter (fun p => ¬ p.2 = []) ≠ [] →
      ∃ o, (MangaBuilder.getVolumeData mangaDir uploadRoot page_urls fetch ft
          ⟨name, ft, []⟩ fs vol).wrote = some o ∧
        o.images.Perm (((urls.map fetch).filter (fun p => ¬ p.2 = [])).map Prod.snd)) ∧
    ((ft = "pdf" ∨ ft = "cbz") → (urls.map fetch).filter (fun p => ¬ p.2 = []) = [] →
      (MangaBuilder.getVolumeData mangaDir uploadRoot page_urls fetch ft
        ⟨name, ft, []⟩ fs vol).wrote = none ∧
      (MangaBuilder.getVolumeData mangaDir uploadRoot page_urls fetch ft
        ⟨name, ft, []⟩ fs vol).fs = fs) := by
  intro mangaDir uploadRoot page_urls fetch name ft fs vol urls hns hcat hne hnodup
  rw [getVolumeData_run mangaDir uploadRoot page_urls fetch name ft fs vol urls
    hns hcat hne hnodup]
  dsimp only
  refine ⟨?_, rfl, ?_, ?_, ?_⟩
  · simp [List.any_eq_false]
  · simp [Manga.volumes_dict]
  · intro hft hkept
    simp only [decide_not] at hkept
    have hpagesne : (keptVolume mangaDir uploadRoot name ft vol
        (urls.map fetch)).pages ≠ [] := by
      intro h0
      have hperm := List.perm_insertionSort pageLe
        ((keptVolume mangaDir uploadRoot name ft vol (urls.map fetch))._pages.map Prod.snd)
      rw [Volume.pages] at h0
      rw [h0] at hperm
      have h2 := hperm.symm.eq_nil
      simp only [keptVolume, List.map_eq_nil_iff, decide_not] at h2
      exact hkept h2
    rcases hft with rfl | rfl
    · have hsv : MangaBuilder.save_volume "pdf"
          (keptVolume mangaDir uploadRoot name "pdf" vol (urls.map fetch)) =
          some (some (.pdf ((keptVolume mangaDir uploadRoot name "pdf" vol
            (urls.map fetch)).pages.map Page.img))) := by
        simp [MangaBuilder.save_volume, MangaBuilder.to_pdf, hpagesne]
      rw [hsv]
      refine ⟨_, rfl, ?_⟩
      simp only [SaveOutput.images]
      have hperm := (List.perm_insertionSort pageLe
        ((keptVolume mangaDir uploadRoot name "pdf" vol (urls.map fetch))._pages.map
          Prod.snd)).map Page.img
      rw [Volume.pages]
      refine hperm.trans ?_
      simp only [keptVolume, List.map_map, decide_not]
      exact List.Perm.refl _
    · have hsv : MangaBuilder.save_volume "cbz"
          (keptVolume mangaDir uploadRoot name "cbz" vol (urls.map fetch)) =
          some (some (.cbz ((keptVolume mangaDir uploadRoot name "cbz" vol
            (urls.map fetch)).pages.map (fun p => (cbzEntryName p.number
              (keptVolume mangaDir uploadRoot name "cbz" vol (urls.map fetch)).number,
              p.img))))) := by
        simp [MangaBuilder.save_volume, MangaBuilder.to_cbz, hpagesne]
      rw [hsv]
      refine ⟨_, rfl, ?_⟩
      simp only [SaveOutput.images, List.map_map, Function.comp]
      have hperm := (List.perm_insertionSort pageLe
        ((keptVolume mangaDir uploadRoot name "cbz" vol (urls.map fetch))._pages.map
          Prod.snd)).map Page.img
      rw [Volume.pages]
      refine hperm.trans ?_
      simp only [keptVolume, List.map_map, decide_not]
      exact List.Perm.refl _
  · intro hft hkept
    simp only [decide_not] at hkept
    have hpages : (keptVolume mangaDir uploadRoot name ft vol
        (urls.map fetch))._pages = [] := by
      simp [keptVolume, hkept]
    have hpages2 : (keptVolume mangaDir uploadRoot name ft vol
        (urls.map fetch)).pages = [] := by
      simp [Volume.pages, hpages]
    rcases hft with rfl | rfl
    · have hsv : MangaBuilder.save_volume "pdf"
          (keptVolume mangaDir uploadRoot name "pdf" vol (urls.map fetch)) =
          some none := by
        simp [MangaBuilder.save_volume, MangaBuilder.to_pdf, hpages2]
      rw [hsv]
      simp
    · have hsv : MangaBuilder.save_volume "cbz"
          (keptVolume mangaDir uploadRoot name "cbz" vol (urls.map fetch)) =
          some none := by
        simp [MangaBuilder.save_volume, MangaBuilder.to_cbz, hpages2]
      rw [hsv]
      simp

/-- Witness for C5 at the spec's partial-failure scenario: 3 locators,
locator 2 always failing — the missing-page log lists exactly index 2, and
in both pdf and cbz mode a container is written holding exactly the images
of the surviving pages 1 and 3. -/
theorem claim_C5_witness :
    (MangaBuilder.getVolumeData "/m" "/u" (fun _ => some [(1, "u"), (2, "v"), (3, "w")])
      (fun p => if p.1 = 2 then (p.1, []) else (p.1, [p.1])) "pdf"
      ⟨"X", "pdf", []⟩ [] "1").reportedMissing = [2] ∧
    (∃ o, (MangaBuilder.getVolumeData "/m" "/u" (fun _ => some [(1, "u"), (2, "v"), (3, "w")])
        (fun p => if p.1 = 2 then (p.1, []) else (p.1, [p.1])) "pdf"
        ⟨"X", "pdf", []⟩ [] "1").wrote = some o ∧
      o.images.Perm ((([(1, "u"), (2, "v"), (3, "w")].map
          (fun p : Nat × String => if p.1 = 2 then (p.1, ([] : Img)) else (p.1, [p.1]))).filter
        (fun p => ¬ p.2 = [])).map Prod.snd)) ∧
    (∃ o, (MangaBuilder.getVolumeData "/m" "/u" (fun _ => some [(1, "u"), (2, "v"), (3, "w")])
        (fun p => if p.1 = 2 then (p.1, []) else (p.1, [p.1])) "cbz"
        ⟨"X", "cbz", []⟩ [] "1").wrote = some o ∧
      o.images.Perm ((([(1, "u"), (2, "v"), (3, "w")].map
          (fun p : Nat × String => if p.1 = 2 then (p.1, ([] : Img)) else (p.1, [p.1]))).filter
        (fun p => ¬ p.2 = [])).map Prod.snd)) :=
  ⟨((claim_C5 "/m" "/u" (fun _ => some [(1, "u"), (2, "v"), (3, "w")])
      (fun p => if p.1 = 2 then (p.1, []) else (p.1, [p.1])) "X" "pdf" [] "1"
      [(1, "u"), (2, "v"), (3, "w")] (by decide) rfl (by decide) (by decide)).2.1).trans
    (by decide),
   (claim_C5 "/m" "/u" (fun _ => some [(1, "u"), (2, "v"), (3, "w")])
      (fun p => if p.1 = 2 then (p.1, []) else (p.1, [p.1])) "X" "pdf" [] "1"
      [(1, "u"), (2, "v"), (3, "w")] (by decide) rfl (by decide) (by decide)).2.2.2.1
     (Or.inl rfl) (by decide),
   (claim_C5 "/m" "/u" (fun _ => some [(1, "u"), (2, "v"), (3, "w")])
      (fun p => if p.1 = 2 then (p.1, []) else (p.1, [p.1])) "X" "cbz" [] "1"
      [(1, "u"), (2, "v"), (3, "w")] (by decide) rfl (by decide) (by decide)).2.2.2.1
     (Or.inr rfl) (by decide)⟩

/-- Counterexample to C7 as stated: with a catalog reporting the same page
index twice, the duplicate insertion raises `PageAlreadyPresent`, which the
acquisition layer's `except (VolumeAlreadyExists, VolumeAlreadyPresent)`
does not catch — the volume's acquisition aborts (nothing is saved) instead
of logging and continuing; the previously stored page is kept unchanged. -/
theorem claim_C7_counterexample :
    (MangaBuilder.getVolumeData "/m" "/u" (fun _ => some [(1, "u"), (1, "v")])
      (fun p => (p.1, [7])) "pdf" ⟨"X", "pdf", []⟩ [] "1").aborted =
      some (.pageAlreadyPresent ("Page " ++ toString 1 ++ " is already present")) ∧
    (MangaBuilder.getVolumeData "/m" "/u" (fun _ => some [(1, "u"), (1, "v")])
      (fun p => (p.1, [7])) "pdf" ⟨"X", "pdf", []⟩ [] "1").wrote = none ∧
    (MangaBuilder.getVolumeData "/m" "/u" (fun _ => some [(1, "u"), (1, "v")])
      (fun p => (p.1, [7])) "pdf" ⟨"X", "pdf", []⟩ [] "1").manga.volumes_dict.lookup "1" =
      some (Volume.mk "1" "/m/X/X_chapter_1.pdf" "/u/X/X_chapter_1.pdf"
        [(1, Page.mk 1 [7])]) := by
  refine ⟨by decide, by decide, by decide⟩

/-- C7 (amended): inserting a page whose index is already present raises
`PageAlreadyPresent` and drops the later insertion, keeping the stored page
unchanged (`add_page` returns the error without touching the map); but at
the acquisition layer only `VolumeAlreadyExists`/`VolumeAlreadyPresent` are
caught, so a duplicate page index escaping the pages setter aborts that
volume's acquisition (nothing saved) rather than being logged and skipped
with processing continuing. -/
theorem claim_C7 :
    (∀ (v : Volume) (n : Nat) (img : Img),
      (v.page.lookup n).isSome = true →
      v.add_page n img = .error (.pageAlreadyPresent
        ("Page " ++ toString n ++ " is already present"))) ∧
    (∀ (mangaDir uploadRoot : String)
      (page_urls : String → Option (List (Nat × String)))
      (fetch : Nat × String → Nat × Img) (name ft : String)
      (fs : List String) (vol : String) (urls : List (Nat × String)),
      Manga.volume_exists fs mangaDir ⟨name, ft, []⟩ vol = false →
      page_urls vol = some urls → urls ≠ [] →
      ¬ ((((urls.map fetch).filter (fun p => ¬ p.2 = [])).map Prod.fst).Nodup) →
      ((MangaBuilder.getVolumeData mangaDir uploadRoot page_urls fetch ft
        ⟨name, ft, []⟩ fs vol).aborted).isSome = true ∧
      (MangaBuilder.getVolumeData mangaDir uploadRoot page_urls fetch ft
        ⟨name, ft, []⟩ fs vol).fs = fs) := by
  constructor
  · intro v n img h
    simp [Volume.add_page, h]
  · intro mangaDir uploadRoot page_urls fetch name ft fs vol urls hns hcat hne hdup
    simp only [decide_not] at hdup
    exact getVolumeData_dup_aborts mangaDir uploadRoot page_urls fetch name ft fs vol
      urls hns hcat hne hdup

/-- Witness for C7: a concrete duplicate insertion errors without mutating,
and a concrete duplicate catalog aborts the volume's acquisition. -/
theorem claim_C7_witness :
    (Volume.mk "1" "f" "u" [(1, Page.mk 1 [7])]).add_page 1 [9] =
      .error (.pageAlreadyPresent ("Page " ++ toString 1 ++ " is already present")) ∧
    ((MangaBuilder.getVolumeData "/m" "/u" (fun _ => some [(1, "u"), (1, "v")])
      (fun p => (p.1, [7])) "pdf" ⟨"X", "pdf", []⟩ [] "1").aborted).isSome = true :=
  ⟨claim_C7.1 (Volume.mk "1" "f" "u" [(1, Page.mk 1 [7])]) 1 [9] (by decide),
   (claim_C7.2 "/m" "/u" (fun _ => some [(1, "u"), (1, "v")]) (fun p => (p.1, [7]))
     "X" "pdf" [] "1" [(1, "u"), (1, "v")] (by decide) rfl (by decide) (by decide)).1⟩

end Scraper
